import Mathlib

/-!
Shallow embedding of the MMU firmware core: the register communication layer
(src/registers.cpp) and the Home command state machine (src/logic/home.cpp).
Machine integers are modelled as Nat with explicit truncation (% 256, % 65536)
at the points where the C++ code performs a narrowing store or load.
-/

namespace MMU

/-- The raw memory cells the register table points into. In the C++ source the
raw-backed descriptors store a `void *` into one of these global objects
(`project_major` .. `project_build_number` are `uint8_t` version constants from
version.hpp, `dummyZero` is the `uint16_t` constant in registers.cpp). -/
inductive Cell where
  | projectMajor
  | projectMinor
  | projectRevision
  | projectBuildNumber
  | dummyZero
deriving DecidableEq

/-- Modelled from the spec: the compile-time `config::` constants referenced by
the register table (config.h is not under src/; §6 of the spec lists the
registers they back). Their concrete numeric values are external and do not
decide any claim, so the embedding is parametric in them. -/
structure Config where
  toolCount : Nat
  pulleyAccel : Nat
  selectorAccel : Nat
  idlerAccel : Nat
  selectorHomingFeedrate : Nat
  idlerHomingFeedrate : Nat
  pulleySgThrs : Nat
  selectorSgThrs : Nat
  idlerSgThrs : Nat

/-- The mutable global state visible through the register table: the raw memory
cells plus the polled state of the external subsystem modules (globals, finda,
fsensor, pulley, selector, idler, application). Each accessor lambda in
registers.cpp reads or writes exactly one of these components. -/
structure SysState where
  mem : Cell → Nat
  driveErrors : Nat
  currentProgressCode : Nat
  currentErrorCode : Nat
  activeSlot : Nat
  filamentLoaded : Nat
  findaPressed : Bool
  fsensorPressed : Bool
  motorsStealth : Bool
  fsensorToNozzle_mm : Nat
  fsensorUnloadCheck_mm : Nat
  pulleyUnloadFeedrate_mm_s : Nat
  pulleyLoadFeedrate_mm_s : Nat
  pulleySlowFeedrate_mm_s : Nat
  selectorFeedrate_mm_s : Nat
  idlerFeedrate_deg_s : Nat
  pulleyPosition_mm : Nat
  selectorSlot : Nat
  idlerEngaged : Bool
  idlerSlot : Nat

/-- Store a value into one raw memory cell, leaving the rest of the state
unchanged (the effect of `*static_cast<uintN_t *>(addr) = ...`). -/
def SysState.setMem (s : SysState) (c : Cell) (v : Nat) : SysState :=
  { s with mem := fun x => if x = c then v else s.mem x }

/-- Modelled from the spec: `mi::idler.Disengage()` (modules/idler.h is not
under src/). Per §6 and the glossary, disengaging releases the drive roller so
that no filament slot is engaged. -/
def Idler.Disengage (s : SysState) : SysState :=
  { s with idlerEngaged := false }

/-- Modelled from the spec: `mi::idler.Engage(slot)` (modules/idler.h is not
under src/). Engages the drive roller at the given filament slot. -/
def Idler.Engage (slot : Nat) (s : SysState) : SysState :=
  { s with idlerEngaged := true, idlerSlot := slot }

/-- Modelled from the spec: `mi::idler.Slot()` (modules/idler.h is not under
src/). §8 requires that after a disengage a read of register 0x1C reflects
"disengaged", not a valid slot; valid slots are `0 .. toolCount - 1`, so the
disengaged reading is the out-of-range value `toolCount`. -/
def Idler.SlotRead (cfg : Config) (s : SysState) : Nat :=
  if s.idlerEngaged then s.idlerSlot else cfg.toolCount

/-- Modelled from the spec: `ms::selector.MoveToSlot(d)` (modules/selector.h is
not under src/); §6: a write to 0x1B triggers a move to the given slot. -/
def Selector.MoveToSlot (slot : Nat) (s : SysState) : SysState :=
  { s with selectorSlot := slot }

/-- Modelled from the spec: `mfs::fsensor.ProcessMessage(v != 0)`
(modules/fsensor.h is not under src/); §6: a write to 0x09 injects a simulated
filament-sensor reading. -/
def FSensor.ProcessMessage (pressed : Bool) (s : SysState) : SysState :=
  { s with fsensorPressed := pressed }

/-- The payload of the two unions `U1`/`U2` of RegisterRec together with the
active-member information: either a raw memory address or the pair of accessor
functions (`A2.writeFunc` is nullptr — `none` — for read-only accessor
registers). The C++ constructors keep the `rwfuncs` flag bit in lockstep with
which union member is initialised, so the discriminant is represented by the
variant itself. -/
inductive RegBacking where
  | raw (cell : Cell)
  | funcs (readFunc : SysState → Nat) (writeFunc : Option (Nat → SysState → SysState))

/-- The `RegisterFlags` bitfield of registers.cpp minus the `rwfuncs` bit
(derived, see RegBacking): `writable`, and `size` (a 2-bit field: 0 = 1 bit,
1 = 1 byte, 2 = 2 bytes; 3 is representable but unrecognized). -/
structure RegisterFlags where
  writable : Bool
  size : Nat

/-- One register descriptor — the `RegisterRec` struct of registers.cpp. -/
structure RegisterRec where
  flags : RegisterFlags
  backing : RegBacking

/-- The derived `rwfuncs` flag bit: true exactly for accessor-function backing,
as the C++ constructors maintain it. -/
def RegisterRec.rwfuncs (r : RegisterRec) : Bool :=
  match r.backing with
  | .raw _ => false
  | .funcs _ _ => true

/-- The `RegisterRec(bool writable, T *address)` constructor: raw backing,
`size = sizeof(T)` (1 or 2 for the cells actually used). -/
def RegisterRec.mkRaw (writable : Bool) (size : Nat) (cell : Cell) : RegisterRec :=
  ⟨⟨writable, size⟩, .raw cell⟩

/-- The `RegisterRec(const TReadFunc &, uint8_t bytes)` constructor: read-only
accessor register, `A2.writeFunc = nullptr`. -/
def RegisterRec.mkRO (readFunc : SysState → Nat) (bytes : Nat) : RegisterRec :=
  ⟨⟨false, bytes⟩, .funcs readFunc none⟩

/-- The `RegisterRec(const TReadFunc &, const TWriteFunc &, uint8_t bytes)`
constructor: read-write accessor register. -/
def RegisterRec.mkRW (readFunc : SysState → Nat)
    (writeFunc : Nat → SysState → SysState) (bytes : Nat) : RegisterRec :=
  ⟨⟨true, bytes⟩, .funcs readFunc (some writeFunc)⟩

/-- Invoke `A2.writeFunc`. The `none` case is a nullptr function pointer; it is
unreachable through WriteRegister because every accessor descriptor without a
write function is constructed non-writable, and writability is checked first. -/
def applyWriteFunc (wf : Option (Nat → SysState → SysState)) (v : Nat)
    (s : SysState) : SysState :=
  match wf with
  | none => s
  | some f => f v s

/-- `bool ReadRegister(uint8_t address, uint16_t &value)` over an arbitrary
descriptor table; returns the success flag and the final content of the
out-parameter `value` (whose initial content is the last argument).
Structure mirrors registers.cpp lines 231-261: out-of-range fails before
touching `value`; otherwise `value = 0`, then dispatch on `flags.rwfuncs`
(represented by the backing variant) and on `flags.size`, an unrecognized size
failing with `value` already zeroed. A 1-bit/1-byte raw load reads one byte, a
2-byte raw load reads two. -/
def readRegister (regs : List RegisterRec) (address : Nat) (s : SysState)
    (value : Nat) : Bool × Nat :=
  match regs[address]? with
  | none => (false, value)
  | some r =>
    match r.backing with
    | .raw c =>
      match r.flags.size with
      | 0 => (true, s.mem c % 256)
      | 1 => (true, s.mem c % 256)
      | 2 => (true, s.mem c % 65536)
      | _ => (false, 0)
    | .funcs rf _ =>
      match r.flags.size with
      | 0 => (true, rf s)
      | 1 => (true, rf s)
      | 2 => (true, rf s)
      | _ => (false, 0)

/-- `bool WriteRegister(uint8_t address, uint16_t value)` over an arbitrary
descriptor table; returns the success flag and the resulting global state.
Structure mirrors registers.cpp lines 263-295: out-of-range fails, then
non-writable fails, then dispatch on `flags.rwfuncs` and `flags.size`; a raw
store truncates to the stored width (`*(uint8_t *)addr = value` keeps the low
byte), an accessor store invokes the write function with the full value. -/
def writeRegister (regs : List RegisterRec) (address : Nat) (value : Nat)
    (s : SysState) : Bool × SysState :=
  match regs[address]? with
  | none => (false, s)
  | some r =>
    if !r.flags.writable then (false, s)
    else
      match r.backing with
      | .raw c =>
        match r.flags.size with
        | 0 => (true, s.setMem c (value % 256))
        | 1 => (true, s.setMem c (value % 256))
        | 2 => (true, s.setMem c (value % 65536))
        | _ => (false, s)
      | .funcs _ wf =>
        match r.flags.size with
        | 0 => (true, applyWriteFunc wf value s)
        | 1 => (true, applyWriteFunc wf value s)
        | 2 => (true, applyWriteFunc wf value s)
        | _ => (false, s)

/-- The concrete register table of registers.cpp (the `registers[]` array),
entry by entry; addresses 0x00 .. 0x1C. Accessor lambdas are transcribed over
SysState / Config; Bool subsystem answers are widened with `if _ then 1 else 0`
as the `static_cast<uint16_t>` does. -/
def registers (cfg : Config) : List RegisterRec := [
  -- 0x00
  RegisterRec.mkRaw false 1 .projectMajor,
  -- 0x01
  RegisterRec.mkRaw false 1 .projectMinor,
  -- 0x02
  RegisterRec.mkRaw false 1 .projectRevision,
  -- 0x03
  RegisterRec.mkRaw false 1 .projectBuildNumber,
  -- 0x04 MMU errors
  RegisterRec.mkRO (fun s => s.driveErrors) 2,
  -- 0x05 current progress code
  RegisterRec.mkRO (fun s => s.currentProgressCode) 1,
  -- 0x06 current error code
  RegisterRec.mkRO (fun s => s.currentErrorCode) 2,
  -- 0x07 filamentState
  RegisterRec.mkRW (fun s => s.filamentLoaded)
    (fun v s => { s with filamentLoaded := v }) 1,
  -- 0x08 FINDA
  RegisterRec.mkRO (fun s => if s.findaPressed then 1 else 0) 1,
  -- 0x09 fsensor
  RegisterRec.mkRW (fun s => if s.fsensorPressed then 1 else 0)
    (fun v s => FSensor.ProcessMessage (v != 0) s) 1,
  -- 0x0a motor mode (stealth = 1 / normal = 0)
  RegisterRec.mkRO (fun s => if s.motorsStealth then 1 else 0) 1,
  -- 0x0b extra load distance after fsensor triggered [mm] RW
  RegisterRec.mkRW (fun s => s.fsensorToNozzle_mm)
    (fun v s => { s with fsensorToNozzle_mm := v }) 1,
  -- 0x0c fsensor unload check distance [mm] RW
  RegisterRec.mkRW (fun s => s.fsensorUnloadCheck_mm)
    (fun v s => { s with fsensorUnloadCheck_mm := v }) 1,
  -- 0x0d Pulley unload feedrate [mm/s] RW
  RegisterRec.mkRW (fun s => s.pulleyUnloadFeedrate_mm_s)
    (fun v s => { s with pulleyUnloadFeedrate_mm_s := v }) 2,
  -- 0x0e Pulley acceleration [mm/s2] R
  RegisterRec.mkRO (fun _ => cfg.pulleyAccel) 2,
  -- 0x0f Selector acceleration [mm/s2] R
  RegisterRec.mkRO (fun _ => cfg.selectorAccel) 2,
  -- 0x10 Idler acceleration [deg/s2] R
  RegisterRec.mkRO (fun _ => cfg.idlerAccel) 2,
  -- 0x11 Pulley load feedrate [mm/s] RW
  RegisterRec.mkRW (fun s => s.pulleyLoadFeedrate_mm_s)
    (fun v s => { s with pulleyLoadFeedrate_mm_s := v }) 2,
  -- 0x12 Selector nominal feedrate [mm/s] RW
  RegisterRec.mkRW (fun s => s.selectorFeedrate_mm_s)
    (fun v s => { s with selectorFeedrate_mm_s := v }) 2,
  -- 0x13 Idler nominal feedrate [deg/s] RW
  RegisterRec.mkRW (fun s => s.idlerFeedrate_deg_s)
    (fun v s => { s with idlerFeedrate_deg_s := v }) 2,
  -- 0x14 Pulley slow load to fsensor feedrate [mm/s] RW
  RegisterRec.mkRW (fun s => s.pulleySlowFeedrate_mm_s)
    (fun v s => { s with pulleySlowFeedrate_mm_s := v }) 2,
  -- 0x15 Selector homing feedrate [mm/s] R
  RegisterRec.mkRO (fun _ => cfg.selectorHomingFeedrate) 2,
  -- 0x16 Idler homing feedrate [deg/s] R
  RegisterRec.mkRO (fun _ => cfg.idlerHomingFeedrate) 2,
  -- 0x17 Pulley sg_thrs threshold R
  RegisterRec.mkRO (fun _ => cfg.pulleySgThrs) 2,
  -- 0x18 Selector sg_thrs R
  RegisterRec.mkRO (fun _ => cfg.selectorSgThrs) 2,
  -- 0x19 Idler sg_thrs R
  RegisterRec.mkRO (fun _ => cfg.idlerSgThrs) 2,
  -- 0x1a Get Pulley position [mm] R
  RegisterRec.mkRO (fun s => s.pulleyPosition_mm) 2,
  -- 0x1b Set/Get Selector slot RW
  RegisterRec.mkRW (fun s => s.selectorSlot)
    (fun v s => Selector.MoveToSlot v s) 1,
  -- 0x1c Set/Get Idler slot RW
  RegisterRec.mkRW (fun s => Idler.SlotRead cfg s)
    (fun v s => if cfg.toolCount ≤ v then Idler.Disengage s else Idler.Engage v s) 1
]

/-- `registersSize` of registers.cpp line 229. -/
def registersSize (cfg : Config) : Nat := (registers cfg).length

/-- `ReadRegister` against the concrete table. -/
def ReadRegister (cfg : Config) (address : Nat) (s : SysState) (value : Nat) :
    Bool × Nat :=
  readRegister (registers cfg) address s value

/-- `WriteRegister` against the concrete table. -/
def WriteRegister (cfg : Config) (address : Nat) (value : Nat) (s : SysState) :
    Bool × SysState :=
  writeRegister (registers cfg) address value s

/-- A sample configuration for evaluating the engine at concrete inputs
(five tools, arbitrary motion constants). -/
def sampleConfig : Config :=
  { toolCount := 5
    pulleyAccel := 800
    selectorAccel := 200
    idlerAccel := 500
    selectorHomingFeedrate := 3000
    idlerHomingFeedrate := 2700
    pulleySgThrs := 7
    selectorSgThrs := 6
    idlerSgThrs := 5 }

/-- A sample global state for evaluating the engine at concrete inputs. -/
def sampleState : SysState :=
  { mem := fun c =>
      match c with
      | .projectMajor => 3
      | .projectMinor => 0
      | .projectRevision => 3
      | .projectBuildNumber => 0
      | .dummyZero => 0
    driveErrors := 0
    currentProgressCode := 0
    currentErrorCode := 0
    activeSlot := 0
    filamentLoaded := 0
    findaPressed := false
    fsensorPressed := false
    motorsStealth := false
    fsensorToNozzle_mm := 30
    fsensorUnloadCheck_mm := 40
    pulleyUnloadFeedrate_mm_s := 120
    pulleyLoadFeedrate_mm_s := 80
    pulleySlowFeedrate_mm_s := 20
    selectorFeedrate_mm_s := 45
    idlerFeedrate_deg_s := 300
    pulleyPosition_mm := 0
    selectorSlot := 0
    idlerEngaged := false
    idlerSlot := 0 }

/-! The Home command state machine (src/logic/home.cpp). -/

/-- The `ProgressCode` enum (progress_codes.h, declared outside src/): the
values the Home command distinguishes, plus `other` standing for every
remaining value of the underlying `uint8_t` enum (other commands' phases). -/
inductive ProgressCode where
  | OK
  | Homing
  | ERRInternal
  | other (code : Nat)
deriving DecidableEq

/-- The `ErrorCode` enum (error_codes.h, declared outside src/): the values the
Home command uses, plus `other` for the remaining subsystem fault codes. -/
inductive ErrorCode where
  | OK
  | RUNNING
  | INTERNAL
  | other (code : Nat)
deriving DecidableEq

/-- The Home command's own state: its `state` (ProgressCode) and `error`
(ErrorCode) fields inherited from CommandBase. -/
structure Home where
  state : ProgressCode
  error : ErrorCode
deriving DecidableEq

/-- `Home::Reset(uint8_t)` (home.cpp lines 15-19): unconditionally sets
`error = RUNNING`, `state = Homing`. The `InvalidateHomingAndFilamentState`
call touches only external module state, not these two fields. -/
def Home.Reset (_h : Home) (_param : Nat) : Home :=
  { state := .Homing, error := .RUNNING }

/-- `Home::StepInner()` (home.cpp lines 21-37), with the polled answers of
`mi::idler.State() == Ready` and `ms::selector.State() == Ready` as Boolean
inputs. Mirrors the switch: in `Homing`, on both axes ready assign
`state = OK`, `error = OK`, break, and fall through to `return false`; in `OK`
return true; in any other state (the defensive default) assign
`state = ERRInternal`, `error = INTERNAL` and return true. -/
def Home.StepInner (h : Home) (idlerReady selectorReady : Bool) : Bool × Home :=
  match h.state with
  | .Homing =>
    if idlerReady && selectorReady then
      (false, { h with state := .OK, error := .OK })
    else
      (false, h)
  | .OK => (true, h)
  | _ => (true, { h with state := .ERRInternal, error := .INTERNAL })

/-- Run a sequence of StepInner calls, one per observation of the pair
(idler ready, selector ready), keeping the evolving Home state. -/
def Home.Run (h : Home) (obs : List (Bool × Bool)) : Home :=
  match obs with
  | [] => h
  | o :: rest => Home.Run (h.StepInner o.1 o.2).2 rest

/-- One external operation on the Home command: a host-triggered Reset or a
main-loop Step under given readiness observations. -/
inductive HomeOp where
  | reset (param : Nat)
  | step (idlerReady selectorReady : Bool)

/-- Apply one operation to the Home command's state. -/
def Home.Apply (h : Home) : HomeOp → Home
  | .reset p => h.Reset p
  | .step i s => (h.StepInner i s).2

/-- Apply a sequence of Reset / Step operations. -/
def Home.ApplyAll (h : Home) (ops : List HomeOp) : Home :=
  ops.foldl Home.Apply h

/-- The state/error lockstep invariant of the Home command: the pair is one of
(Homing, RUNNING), (OK, OK), (ERRInternal, INTERNAL). -/
def Home.Lockstep (h : Home) : Prop :=
  (h.state = .Homing ∧ h.error = .RUNNING) ∨
  (h.state = .OK ∧ h.error = .OK) ∨
  (h.state = .ERRInternal ∧ h.error = .INTERNAL)

/-- Repeated Reset calls with the given parameters, in order. -/
def Home.ResetN (h : Home) (ps : List Nat) : Home :=
  ps.foldl (fun x p => x.Reset p) h

/-! Theorems about the Home command. -/

lemma home_resetN_fixed (ps : List Nat) :
    Home.ResetN (⟨.Homing, .RUNNING⟩ : Home) ps = ⟨.Homing, .RUNNING⟩ := by
  induction ps with
  | nil => rfl
  | cons q ps ih => simpa [Home.ResetN, Home.Reset] using ih

/-- Claim C7: Home::Reset is idempotent — any positive number of consecutive
Reset calls (with arbitrary parameters, no intervening Step) leaves
state = Homing and error = RUNNING, regardless of the prior state and error. -/
theorem home_reset_idempotent (h : Home) (p : Nat) (ps : List Nat) :
    (Home.ResetN h (p :: ps)).state = .Homing ∧
    (Home.ResetN h (p :: ps)).error = .RUNNING := by
  have : Home.ResetN h (p :: ps) = ⟨.Homing, .RUNNING⟩ := by
    simpa [Home.ResetN, Home.Reset] using home_resetN_fixed ps
  rw [this]
  exact ⟨rfl, rfl⟩

lemma home_run_ok (obs : List (Bool × Bool)) (h : Home) (hok : h.state = .OK) :
    Home.Run h obs = h := by
  induction obs with
  | nil => rfl
  | cons o rest ih =>
    have hstep : h.StepInner o.1 o.2 = (true, h) := by
      simp [Home.StepInner, hok]
    simp [Home.Run, hstep, ih]

/-- Claim C5: after Reset, while the idler or the selector is not Ready every
Step returns false and leaves the Home state (hence state = Homing,
error = RUNNING) unchanged; when both are Ready the state transitions once to
(OK, OK); and from OK no later Step sequence ever changes it again. -/
theorem home_homing_until_ready_then_ok_forever (h : Home) (i s : Bool)
    (obs : List (Bool × Bool)) :
    (h.state = .Homing → (i && s) = false → h.StepInner i s = (false, h)) ∧
    (h.state = .Homing → (i && s) = true →
      h.StepInner i s = (false, { h with state := .OK, error := .OK })) ∧
    (h.state = .OK → Home.Run h obs = h) := by
  refine ⟨?_, ?_, fun hok => home_run_ok obs h hok⟩
  · intro hst hns
    simp [Home.StepInner, hst, hns]
  · intro hst hrdy
    simp [Home.StepInner, hst, hrdy]

/-- Witness for C5 at concrete inputs: from (Homing, RUNNING), an observation
with the idler not ready leaves the state untouched and returns false; an
observation with both ready moves to (OK, OK); from (OK, OK) a further run of
two Step calls changes nothing. -/
theorem home_homing_until_ready_then_ok_forever_witness :
    (⟨.Homing, .RUNNING⟩ : Home).StepInner false true =
      (false, ⟨.Homing, .RUNNING⟩) ∧
    (⟨.Homing, .RUNNING⟩ : Home).StepInner true true = (false, ⟨.OK, .OK⟩) ∧
    Home.Run (⟨.OK, .OK⟩ : Home) [(true, true), (false, false)] = ⟨.OK, .OK⟩ :=
  ⟨(home_homing_until_ready_then_ok_forever ⟨.Homing, .RUNNING⟩ false true []).1
      rfl rfl,
   (home_homing_until_ready_then_ok_forever ⟨.Homing, .RUNNING⟩ true true []).2.1
      rfl rfl,
   (home_homing_until_ready_then_ok_forever ⟨.OK, .OK⟩ true true
      [(true, true), (false, false)]).2.2 rfl⟩

/-- Claim C2, counterexample: with both axes Ready at the moment of Reset, the
very next Step call returns FALSE (not true as claimed), even though it has
already set state = OK and error = OK — the switch breaks out after the
assignment and falls through to `return false`. -/
theorem home_first_step_after_ready_reset_returns_false :
    ((((⟨.other 0, .other 0⟩ : Home).Reset 0).StepInner true true).1 = false) ∧
    ((((⟨.other 0, .other 0⟩ : Home).Reset 0).StepInner true true).2 =
      ⟨.OK, .OK⟩) := by
  decide

/-- Claim C2, amended: with both axes Ready at Reset, the very next Step sets
state = OK, error = OK but returns false, and the call after that returns
true; in general Step returns true exactly when the phase at entry to the call
is not Homing (i.e. termination is reported one call after the transition). -/
theorem home_step_done_iff_entry_not_homing (h : Home) (p : Nat) (i s : Bool) :
    (i = true → s = true →
      (h.Reset p).StepInner i s = (false, ⟨.OK, .OK⟩) ∧
      ((((h.Reset p).StepInner i s).2).StepInner i s).1 = true) ∧
    ((h.StepInner i s).1 = true ↔ h.state ≠ .Homing) := by
  constructor
  · intro hi hs
    subst hi; subst hs
    exact ⟨rfl, rfl⟩
  · cases hst : h.state <;> simp [Home.StepInner, hst]
    cases i <;> cases s <;> simp

/-- Witness for the amended C2 at concrete inputs: from any prior state, Reset
then Step with both axes Ready yields (false, (OK, OK)); the following Step
returns true. -/
theorem home_step_done_iff_entry_not_homing_witness :
    ((⟨.ERRInternal, .INTERNAL⟩ : Home).Reset 3).StepInner true true =
      (false, ⟨.OK, .OK⟩) ∧
    (((((⟨.ERRInternal, .INTERNAL⟩ : Home).Reset 3).StepInner true true).2
      ).StepInner true true).1 = true :=
  (home_step_done_iff_entry_not_homing ⟨.ERRInternal, .INTERNAL⟩ 3 true true).1
    rfl rfl

/-- Claim C8: from any state outside the modeled phases (neither Homing nor
OK), Step takes the defensive default branch: it sets state = ERRInternal,
error = INTERNAL and returns true, terminating the command. -/
theorem home_step_unmodeled_state_errinternal (h : Home) (i s : Bool)
    (h1 : h.state ≠ .Homing) (h2 : h.state ≠ .OK) :
    h.StepInner i s = (true, { h with state := .ERRInternal, error := .INTERNAL }) := by
  cases hst : h.state <;> simp_all [Home.StepInner]

/-- Witness for C8: a state value belonging to another command's phase set
terminates with ERRInternal / INTERNAL and Step returning true. -/
theorem home_step_unmodeled_state_errinternal_witness :
    (⟨.other 99, .RUNNING⟩ : Home).StepInner false false =
      (true, ⟨.ERRInternal, .INTERNAL⟩) :=
  home_step_unmodeled_state_errinternal ⟨.other 99, .RUNNING⟩ false false
    (by decide) (by decide)

lemma home_lockstep_apply (h : Home) (op : HomeOp) (hl : Home.Lockstep h) :
    Home.Lockstep (h.Apply op) := by
  cases op with
  | reset p => exact Or.inl ⟨rfl, rfl⟩
  | step i s =>
    rcases hl with ⟨h1, h2⟩ | ⟨h1, h2⟩ | ⟨h1, h2⟩
    · cases hrdy : (i && s) <;>
        simp [Home.Apply, Home.StepInner, Home.Lockstep, h1, h2, hrdy]
    · simp [Home.Apply, Home.StepInner, Home.Lockstep, h1, h2]
    · simp [Home.Apply, Home.StepInner, Home.Lockstep, h1, h2]

lemma home_lockstep_applyAll (h : Home) (hl : Home.Lockstep h)
    (ops : List HomeOp) : Home.Lockstep (Home.ApplyAll h ops) := by
  induction ops generalizing h with
  | nil => exact hl
  | cons op rest ih =>
    have : Home.ApplyAll h (op :: rest) = Home.ApplyAll (h.Apply op) rest := rfl
    rw [this]
    exact ih _ (home_lockstep_apply h op hl)

/-- Claim C10: starting from any Reset, after an arbitrary sequence of Reset
and Step operations the pair (state, error) is always one of exactly
(Homing, RUNNING), (OK, OK), (ERRInternal, INTERNAL). -/
theorem home_state_error_lockstep (h : Home) (p : Nat) (ops : List HomeOp) :
    Home.Lockstep (Home.ApplyAll (h.Reset p) ops) :=
  home_lockstep_applyAll _ (Or.inl ⟨rfl, rfl⟩) ops

/-! Theorems about the register access engine. -/

/-- Claim C1: the table has 0x1D entries (addresses 0x00 .. 0x1C); for every
address at or beyond that length, ReadRegister and WriteRegister both fail,
ReadRegister leaves its out-parameter untouched, and WriteRegister leaves the
whole global state untouched. -/
theorem register_out_of_range_fail (cfg : Config) (a : Nat) (ha : 0x1D ≤ a)
    (v v0 : Nat) (s : SysState) :
    registersSize cfg = 0x1D ∧
    ReadRegister cfg a s v0 = (false, v0) ∧
    WriteRegister cfg a v s = (false, s) := by
  have hget : (registers cfg)[a]? = none :=
    List.getElem?_eq_none (by simpa [registers] using ha)
  exact ⟨rfl, by simp [ReadRegister, readRegister, hget],
    by simp [WriteRegister, writeRegister, hget]⟩

/-- Witness for C1 at the first out-of-range address 0x1D. -/
theorem register_out_of_range_fail_witness :
    registersSize sampleConfig = 0x1D ∧
    ReadRegister sampleConfig 0x1D sampleState 7 = (false, 7) ∧
    WriteRegister sampleConfig 0x1D 42 sampleState = (false, sampleState) :=
  register_out_of_range_fail sampleConfig 0x1D (by decide) 42 7 sampleState

/-- Claim C3: a write to any non-writable address fails and changes nothing:
the global state is returned unchanged, so a subsequent read of the same
address returns exactly what a read before the failed write returned. -/
theorem write_readonly_no_effect (cfg : Config) (a : Nat) (r : RegisterRec)
    (hget : (registers cfg)[a]? = some r) (hw : r.flags.writable = false)
    (v v0 : Nat) (s : SysState) :
    WriteRegister cfg a v s = (false, s) ∧
    ReadRegister cfg a (WriteRegister cfg a v s).2 v0 =
      ReadRegister cfg a s v0 := by
  have h1 : WriteRegister cfg a v s = (false, s) := by
    simp [WriteRegister, writeRegister, hget, hw]
  exact ⟨h1, by rw [h1]⟩

/-- Witness for C3 at address 0x00 (the read-only raw register backed by
`project_major`). -/
theorem write_readonly_no_effect_witness :
    WriteRegister sampleConfig 0 77 sampleState = (false, sampleState) ∧
    ReadRegister sampleConfig 0 (WriteRegister sampleConfig 0 77 sampleState).2 9 =
      ReadRegister sampleConfig 0 sampleState 9 :=
  write_readonly_no_effect sampleConfig 0 (RegisterRec.mkRaw false 1 .projectMajor)
    rfl rfl 77 9 sampleState

/-- Claim C6: for any descriptor table, a successful write to a writable
raw-backed register of declared width 1 (one byte) or 2 (two bytes) stores the
value truncated to that width, and a subsequent read of the same register
returns exactly that truncation — the low byte for width 1, the full 16-bit
value for width 2. (The shipped table constructs all its raw-backed
descriptors read-only, so the property is established for the engine over an
arbitrary table; the `RegisterRec(bool writable, T *address)` constructor does
admit writable raw registers.) -/
theorem raw_register_write_read_roundtrip (regs : List RegisterRec) (a : Nat)
    (r : RegisterRec) (c : Cell) (hget : regs[a]? = some r)
    (hb : r.backing = .raw c) (hw : r.flags.writable = true)
    (v v0 : Nat) (s : SysState) :
    (r.flags.size = 1 →
      writeRegister regs a v s = (true, s.setMem c (v % 256)) ∧
      readRegister regs a (writeRegister regs a v s).2 v0 = (true, v % 256)) ∧
    (r.flags.size = 2 →
      writeRegister regs a v s = (true, s.setMem c (v % 65536)) ∧
      readRegister regs a (writeRegister regs a v s).2 v0 =
        (true, v % 65536)) := by
  constructor
  · intro hs1
    have hwrite : writeRegister regs a v s = (true, s.setMem c (v % 256)) := by
      simp [writeRegister, hget, hw, hb, hs1]
    refine ⟨hwrite, ?_⟩
    rw [hwrite]
    simp [readRegister, hget, hb, hs1, SysState.setMem]
  · intro hs2
    have hwrite : writeRegister regs a v s = (true, s.setMem c (v % 65536)) := by
      simp [writeRegister, hget, hw, hb, hs2]
    refine ⟨hwrite, ?_⟩
    rw [hwrite]
    simp [readRegister, hget, hb, hs2, SysState.setMem]

/-- A two-entry table exercising the writable raw-backed descriptors that the
`RegisterRec(bool writable, T *address)` constructor admits (the shipped table
only instantiates it with writable = false). -/
def demoRawRegs : List RegisterRec :=
  [RegisterRec.mkRaw true 1 .projectMajor,
   RegisterRec.mkRaw true 2 .dummyZero]

/-- Witness for C6: writing 300 to a one-byte raw register reads back
300 % 256 = 44; writing 70000 to a two-byte raw register reads back
70000 % 65536 = 4464. -/
theorem raw_register_write_read_roundtrip_witness :
    (writeRegister demoRawRegs 0 300 sampleState =
      (true, sampleState.setMem .projectMajor (300 % 256)) ∧
     readRegister demoRawRegs 0 (writeRegister demoRawRegs 0 300 sampleState).2 7 =
      (true, 300 % 256)) ∧
    (writeRegister demoRawRegs 1 70000 sampleState =
      (true, sampleState.setMem .dummyZero (70000 % 65536)) ∧
     readRegister demoRawRegs 1 (writeRegister demoRawRegs 1 70000 sampleState).2 7 =
      (true, 70000 % 65536)) :=
  ⟨(raw_register_write_read_roundtrip demoRawRegs 0
      (RegisterRec.mkRaw true 1 .projectMajor) .projectMajor rfl rfl rfl
      300 7 sampleState).1 rfl,
   (raw_register_write_read_roundtrip demoRawRegs 1
      (RegisterRec.mkRaw true 2 .dummyZero) .dummyZero rfl rfl rfl
      70000 7 sampleState).2 rfl⟩

/-- Claim C9: ReadRegister zeroes its out-parameter before dispatching on the
descriptor: if an in-range read then fails because the descriptor's width
field is unrecognized (the 2-bit value 3), the call returns false with the
out-parameter already overwritten with 0 — unlike an out-of-range failure,
which returns false with the out-parameter untouched. -/
theorem read_unrecognized_width_zeroes_value (regs : List RegisterRec)
    (a : Nat) (r : RegisterRec) (hget : regs[a]? = some r)
    (hs : r.flags.size = 3) (b : Nat) (hb : regs.length ≤ b)
    (s : SysState) (v0 : Nat) :
    readRegister regs a s v0 = (false, 0) ∧
    readRegister regs b s v0 = (false, v0) := by
  constructor
  · cases hbk : r.backing <;> simp [readRegister, hget, hs, hbk]
  · simp [readRegister, List.getElem?_eq_none hb]

/-- A one-entry table whose descriptor carries the unrecognized width 3, as
the `RegisterRec(const TReadFunc &, uint8_t bytes)` constructor admits. -/
def demoBadWidthRegs : List RegisterRec :=
  [RegisterRec.mkRO (fun _ => 0) 3]

/-- Witness for C9: the in-range width-3 read zeroes the out-parameter (7
becomes 0), the out-of-range read leaves it at 7. -/
theorem read_unrecognized_width_zeroes_value_witness :
    readRegister demoBadWidthRegs 0 sampleState 7 = (false, 0) ∧
    readRegister demoBadWidthRegs 1 sampleState 7 = (false, 7) :=
  read_unrecognized_width_zeroes_value demoBadWidthRegs 0
    (RegisterRec.mkRO (fun _ => 0) 3) rfl rfl 1 (by decide) sampleState 7

/-- Claim C4: a write to register 0x1C with a value at or above the configured
tool count succeeds and disengages the idler, and a subsequent read of 0x1C
returns `toolCount` — the disengaged reading, not a valid slot (valid slots
are strictly below the tool count); a write with a value below the tool count
succeeds and engages the idler at that slot, and a subsequent read returns
that slot. -/
theorem idler_register_write_semantics (cfg : Config) (v : Nat) (s : SysState)
    (v0 : Nat) :
    (WriteRegister cfg 0x1C v s).1 = true ∧
    (cfg.toolCount ≤ v →
      (WriteRegister cfg 0x1C v s).2.idlerEngaged = false ∧
      ReadRegister cfg 0x1C (WriteRegister cfg 0x1C v s).2 v0 =
        (true, cfg.toolCount)) ∧
    (v < cfg.toolCount →
      (WriteRegister cfg 0x1C v s).2.idlerEngaged = true ∧
      (WriteRegister cfg 0x1C v s).2.idlerSlot = v ∧
      ReadRegister cfg 0x1C (WriteRegister cfg 0x1C v s).2 v0 = (true, v)) := by
  have hw : WriteRegister cfg 0x1C v s =
      (true, if cfg.toolCount ≤ v then Idler.Disengage s else Idler.Engage v s) :=
    rfl
  refine ⟨by rw [hw], ?_, ?_⟩
  · intro hle
    rw [hw]
    simp only [if_pos hle]
    refine ⟨rfl, ?_⟩
    have hr : ReadRegister cfg 0x1C (Idler.Disengage s) v0 =
        (true, Idler.SlotRead cfg (Idler.Disengage s)) := rfl
    rw [hr]
    simp [Idler.SlotRead, Idler.Disengage]
  · intro hlt
    rw [hw]
    simp only [if_neg (Nat.not_le.mpr hlt)]
    refine ⟨rfl, rfl, ?_⟩
    have hr : ReadRegister cfg 0x1C (Idler.Engage v s) v0 =
        (true, Idler.SlotRead cfg (Idler.Engage v s)) := rfl
    rw [hr]
    simp [Idler.SlotRead, Idler.Engage]

/-- Witness for C4 with five tools: writing 5 (= toolCount) disengages the
idler and reads back 5 (not a valid slot), writing 2 engages slot 2 and reads
back 2. -/
theorem idler_register_write_semantics_witness :
    ((WriteRegister sampleConfig 0x1C 5 sampleState).2.idlerEngaged = false ∧
     ReadRegister sampleConfig 0x1C
       (WriteRegister sampleConfig 0x1C 5 sampleState).2 0 = (true, 5)) ∧
    ((WriteRegister sampleConfig 0x1C 2 sampleState).2.idlerEngaged = true ∧
     ReadRegister sampleConfig 0x1C
       (WriteRegister sampleConfig 0x1C 2 sampleState).2 0 = (true, 2)) :=
  ⟨(idler_register_write_semantics sampleConfig 5 sampleState 0).2.1 (by decide),
   ⟨((idler_register_write_semantics sampleConfig 2 sampleState 0).2.2
       (by decide)).1,
    ((idler_register_write_semantics sampleConfig 2 sampleState 0).2.2
       (by decide)).2.2⟩⟩

end MMU
